import Mathlib

/-
Verification of the pias workflow orchestrator and protocol surface.

The Lean definitions below are a shallow embedding of the Python sources
`pias/edge_labels.py`, `pias/workflow.py` and `pias/solver_server.py`:
Python dicts are modelled as insertion-ordered association lists, numpy
arrays as lists, the external collaborators (random forest, multicut
optimizer, n5 storage, zmq transport) as explicit oracle values, and
fallible Python code as `Except`-valued functions.
-/

namespace Pias

/-- Edge identity: a pair of unsigned integer node labels, used as a dict key
exactly as the Python code uses the tuple `(e[0], e[1])`. -/
abbrev Edge := ℕ × ℕ

/-- Model of Python dict assignment `d[k] = v` on an insertion-ordered dict:
if the key is present its value is replaced in place (the entry keeps its
position), otherwise the new entry is appended at the end. -/
def dictInsert {α β : Type} [DecidableEq α] : List (α × β) → α → β → List (α × β)
  | [], k, v => [(k, v)]
  | p :: rest, k, v => if p.1 = k then (k, v) :: rest else p :: dictInsert rest k v

/-- Model of Python dict lookup `d[k]` (and of the membership test `k in d`,
via `Option.isSome`): the value of the first entry with the given key. -/
def alookup {α β : Type} [DecidableEq α] (k : α) : List (α × β) → Option β
  | [] => none
  | p :: rest => if p.1 = k then some p.2 else alookup k rest

/-- Biased choice on `Option`: the first operand wins when it is `some`. -/
def optOr {α : Type} : Option α → Option α → Option α
  | some x, _ => some x
  | none, b => b

/-- Embedding of `EdgeLabelCache` (`pias/edge_labels.py`).
`edge_label_map` is the dict from dense index position to user label
(`self.edge_label_map = {}` initially); `edge_index_mapping` is the dict
from edge identity to dense index installed by `update_edge_index_mapping`
(`None` until first set).  The reentrant lock serializes the three methods;
each method is therefore modelled as an atomic function on this record. -/
structure EdgeLabelCache where
  edge_label_map : List (ℕ × ℕ)
  edge_index_mapping : Option (List (Edge × ℕ))
deriving DecidableEq

/-- Constructor `EdgeLabelCache.__init__`: empty label dict, no mapping. -/
def EdgeLabelCache.init : EdgeLabelCache :=
  { edge_label_map := [], edge_index_mapping := none }

/-- Embedding of `EdgeLabelCache.update_labels` (`edge_labels.py` lines 13-23):
if no index mapping has ever been set, return with no change; otherwise for
each `(e, l)` pair of `zip(edges, labels)`, skip the pair if `e` is not in
the mapping, else record `l` under the dict key `mapping[e]`. -/
def EdgeLabelCache.update_labels (c : EdgeLabelCache) (edges : List Edge)
    (labels : List ℕ) : EdgeLabelCache :=
  match c.edge_index_mapping with
  | none => c
  | some m =>
    let newMap := (edges.zip labels).foldl
      (fun d p =>
        match alookup p.1 m with
        | none => d
        | some index => dictInsert d index p.2)
      c.edge_label_map
    { c with edge_label_map := newMap }

/-- Embedding of `EdgeLabelCache.get_sample_and_label_arrays`
(`edge_labels.py` lines 25-29): `edge_indices` iterates the label dict's
keys, `labels` its values (same dict, same iteration order), and the result
is `(samples[edge_indices, ...], labels)`.  The feature matrix is modelled
as a function from row index to row. -/
def EdgeLabelCache.get_sample_and_label_arrays {α : Type} (c : EdgeLabelCache)
    (samples : ℕ → α) : List α × List ℕ :=
  ((c.edge_label_map.map Prod.fst).map samples, c.edge_label_map.map Prod.snd)

/-- Embedding of `EdgeLabelCache.update_edge_index_mapping`
(`edge_labels.py` lines 31-33): replaces the mapping reference wholesale. -/
def EdgeLabelCache.update_edge_index_mapping (c : EdgeLabelCache)
    (m : List (Edge × ℕ)) : EdgeLabelCache :=
  { c with edge_index_mapping := some m }

/-- Specification function for `update_labels`: the label written last for
dict key `i` by the pair sequence, if any (later pairs overwrite earlier
ones; pairs whose edge is absent from the mapping `m` contribute nothing). -/
def lastWrite (m : List (Edge × ℕ)) (i : ℕ) : List (Edge × ℕ) → Option ℕ
  | [] => none
  | p :: rest =>
    optOr (lastWrite m i rest)
      (match alookup p.1 m with
       | none => none
       | some j => if j = i then some p.2 else none)

/-- Modelled from the spec: `EdgeFeatureCache` lives in `edge_feature_cache.py`,
which is not part of the repository snapshot.  Per the spec it loads the edge
list, the edge feature matrix and the derived graph from storage and exposes
the edge-identity-to-index mapping.  The field order matches the 4-tuple that
`Workflow._update_state` (in `workflow.py`, which is in the snapshot) unpacks
as `edges, edge_features, edge_index_mapping, graph`. -/
structure EdgeFeatureCache where
  edges : List Edge
  edge_features : List (List ℤ)
  edge_index_mapping : List (Edge × ℕ)
  graph : List Edge
deriving DecidableEq

/-- One component of the 4-tuple returned by
`EdgeFeatureCache.get_edges_and_features`.  Python is dynamically typed, so
positional indexing into the tuple can pick out any of the four components;
this sum type records which one was picked. -/
inductive TupleItem where
  | edgesItem : List Edge → TupleItem
  | featuresItem : List (List ℤ) → TupleItem
  | mappingItem : List (Edge × ℕ) → TupleItem
  | graphItem : List Edge → TupleItem
deriving DecidableEq

/-- Whether a tuple component is the edge-identity-to-index mapping. -/
def TupleItem.isMappingItem : TupleItem → Bool
  | TupleItem.mappingItem _ => true
  | _ => false

/-- Modelled from the spec: `EdgeFeatureCache.get_edges_and_features` returns
the 4-tuple `(edges, edge_features, edge_index_mapping, graph)` — the order
is fixed by the unpacking in `Workflow._update_state` (`workflow.py` line
114). -/
def EdgeFeatureCache.get_edges_and_features (c : EdgeFeatureCache) : List TupleItem :=
  [TupleItem.edgesItem c.edges, TupleItem.featuresItem c.edge_features,
   TupleItem.mappingItem c.edge_index_mapping, TupleItem.graphItem c.graph]

/-- Outcomes of the external collaborators invoked by `State.compute`: the
random-forest model cache (`train_model`, `predict`) and the multicut
agglomeration (`optimize`).  Both are out of scope per the spec; a raised
Python exception is modelled as `Except.error`. -/
structure ComputeOracles where
  train_model : List (List ℤ) → List ℕ → Except String Unit
  predict : List (List ℤ) → Except String (List ℤ)
  optimize : List Edge → List ℤ → Except String (List ℕ)

/-- Embedding of `State` (`workflow.py` lines 12-53): one snapshot of inputs
plus classifier/optimizer collaborators and the outcome fields.
`random_forest_kwargs` only parameterizes the out-of-scope classifier and is
absorbed into the oracles. -/
structure State where
  edges : List Edge
  edge_features : List (List ℤ)
  graph : List Edge
  labeled_samples : List (List ℤ) × List ℕ
  oracles : ComputeOracles
  solution_state : Option ℕ
  solution : Option (List ℕ)

/-- Exit code `State.SUCCESS = 0`. -/
def State.SUCCESS : ℕ := 0

/-- Exit code `State.NO_LABEL_FOR_SOME_CLASSES = 1`. -/
def State.NO_LABEL_FOR_SOME_CLASSES : ℕ := 1

/-- Exit code `State.RANDOM_FOREST_TRAINING_FAILED = 2`. -/
def State.RANDOM_FOREST_TRAINING_FAILED : ℕ := 2

/-- Exit code `State.MC_OPTIMIZATION_FAILED = 3`. -/
def State.MC_OPTIMIZATION_FAILED : ℕ := 3

/-- Constructor `State.__init__` (`workflow.py` lines 21-36): stores the
snapshot and sets `solution_state = None` and `solution = None`. -/
def State.init (edges : List Edge) (edge_features : List (List ℤ))
    (graph : List Edge) (labeled_samples : List (List ℤ) × List ℕ)
    (oracles : ComputeOracles) : State :=
  { edges := edges, edge_features := edge_features, graph := graph,
    labeled_samples := labeled_samples, oracles := oracles,
    solution_state := none, solution := none }

/-- Embedding of `State.compute` (`workflow.py` lines 38-53): train the
classifier (any exception yields `RANDOM_FOREST_TRAINING_FAILED`), then run
`predict` and `optimize` (any exception yields `MC_OPTIMIZATION_FAILED`);
on success `self.solution` is assigned and `SUCCESS` is returned.  The pair
holds the mutated object and the return value.  Note that `compute` only
returns the code; it never assigns `self.solution_state`. -/
def State.compute (s : State) : State × ℕ :=
  match s.oracles.train_model s.labeled_samples.1 s.labeled_samples.2 with
  | Except.error _ => (s, State.RANDOM_FOREST_TRAINING_FAILED)
  | Except.ok _ =>
    match s.oracles.predict s.edge_features with
    | Except.error _ => (s, State.MC_OPTIMIZATION_FAILED)
    | Except.ok weights =>
      match s.oracles.optimize s.graph weights with
      | Except.error _ => (s, State.MC_OPTIMIZATION_FAILED)
      | Except.ok sol => ({ s with solution := some sol }, State.SUCCESS)

/-- Embedding of `Workflow` (`workflow.py` lines 57-167).  The reentrant lock
serializes cache and state access, so each locked section is one atomic
function here.  The FIFO work queue holds only `self._update_state` thunks,
so it is modelled by the number of queued recompute tasks. -/
structure Workflow where
  edge_feature_cache : EdgeFeatureCache
  edge_label_cache : EdgeLabelCache
  latest_state : Option State
  latest_successful_state : Option State
  update_queue : ℕ

/-- The value `Workflow._update_edges` (`workflow.py` lines 135-138) passes to
`edge_label_cache.update_edge_index_mapping`: component `[1]` of the
`get_edges_and_features()` 4-tuple. -/
def Workflow.update_edges_installed_value (c : EdgeFeatureCache) : TupleItem :=
  (c.get_edges_and_features).getD 1 (TupleItem.edgesItem [])

/-- The component `Workflow._update_state` (`workflow.py` line 114) unpacks as
`edge_index_mapping`: component `[2]` of the same 4-tuple. -/
def Workflow.update_state_unpacked_mapping (c : EdgeFeatureCache) : TupleItem :=
  (c.get_edges_and_features).getD 2 (TupleItem.edgesItem [])

/-- Embedding of `Workflow.request_update_edges` / `Workflow._update_edges`
(`workflow.py` lines 131-138): synchronously refresh the feature cache from
storage (the refresh itself is out-of-scope I/O, modelled by the fresh
`storage` argument), then pass tuple component `[1]` to
`edge_label_cache.update_edge_index_mapping`.  Because component `[1]` is
the feature matrix and not a dict from edge identity to index (claim C3),
the typed label-cache slot is left without a usable mapping; the second
result component records the dynamically-typed value actually passed. -/
def Workflow.request_update_edges (w : Workflow) (storage : EdgeFeatureCache) :
    Workflow × TupleItem :=
  ({ w with edge_feature_cache := storage },
   Workflow.update_edges_installed_value storage)

/-- Constructor `Workflow.__init__` (`workflow.py` lines 59-91): fresh caches,
a call to `_update_edges` (which, per claim C3, installs the feature matrix
rather than an edge-to-index dict into the label cache slot — hence the slot
holds no usable mapping, modelled as `none`), `latest_state = None`,
`latest_successful_state = None`, an empty work queue, and the started
worker thread (the worker is modelled by `runUpdates` below). -/
def Workflow.init (storage : EdgeFeatureCache) : Workflow :=
  { edge_feature_cache := storage,
    edge_label_cache := { edge_label_map := [], edge_index_mapping := none },
    latest_state := none,
    latest_successful_state := none,
    update_queue := 0 }

/-- Embedding of `Workflow.request_update_state` (`workflow.py` lines
109-110): the body is exactly `self.update_queue.put(self._update_state)`,
so the call enqueues one recompute task and falls off the end of the
function — in Python it therefore returns `None`, modelled as
`none : Option ℕ` (no solution-id counter exists anywhere in `Workflow`). -/
def Workflow.request_update_state (w : Workflow) : Workflow × Option ℕ :=
  ({ w with update_queue := w.update_queue + 1 }, none)

/-- The `State` built and computed by one `Workflow._update_state` task
(`workflow.py` lines 112-122): snapshot `(edges, edge_features,
edge_index_mapping, graph)` from the feature cache and
`(samples, labels)` from the label cache under the lock, then run
`state.compute()` outside the lock. -/
def Workflow.computedState (w : Workflow) (o : ComputeOracles) : State × ℕ :=
  let c := w.edge_feature_cache
  let labeled_samples :=
    w.edge_label_cache.get_sample_and_label_arrays (fun k => c.edge_features.getD k [])
  (State.init c.edges c.edge_features c.graph labeled_samples o).compute

/-- Embedding of `Workflow._update_state` (`workflow.py` lines 112-128):
build and compute the state (`computedState`), then under the lock install
`latest_state` (always) and `latest_successful_state` (only when the exit
code is `State.SUCCESS`).  The pair also returns the exit code.  The
listener loop of lines 127-128 is modelled separately by
`Workflow.notify_solution_listener`. -/
def Workflow._update_state (w : Workflow) (o : ComputeOracles) : Workflow × ℕ :=
  let r := w.computedState o
  ({ w with latest_state := some r.1,
            latest_successful_state :=
              if r.2 = State.SUCCESS then some r.1 else w.latest_successful_state },
   r.2)

/-- Embedding of `Workflow._set_edge_labels` / `request_set_edge_labels`
(`workflow.py` lines 140-147): forward to the label cache under the lock. -/
def Workflow.request_set_edge_labels (w : Workflow) (edges : List Edge)
    (labels : List ℕ) : Workflow :=
  { w with edge_label_cache := w.edge_label_cache.update_labels edges labels }

/-- Embedding of `Workflow.get_latest_state` (`workflow.py` lines 159-161):
returns `latest_successful_state`. -/
def Workflow.get_latest_state (w : Workflow) : Option State :=
  w.latest_successful_state

/-- The single background worker (`workflow.py` lines 93-107) executes queued
recompute tasks one at a time, FIFO.  `runUpdates` runs a sequence of
recompute tasks to completion in order, pairing each with its collaborator
outcomes, and collects the exit codes in completion order. -/
def Workflow.runUpdates (w : Workflow) : List ComputeOracles → Workflow × List ℕ
  | [] => (w, [])
  | o :: os =>
    let s := w._update_state o
    let r := s.1.runUpdates os
    (r.1, s.2 :: r.2)

/-- Constant `_SUCCESS = 0` (`solver_server.py` line 19). -/
def _SUCCESS : ℕ := 0

/-- Constant `_NO_SOLUTION_AVAILABLE = 1` (`solver_server.py` line 20). -/
def _NO_SOLUTION_AVAILABLE : ℕ := 1

/-- Constant `_SET_EDGE_REP_SUCCESS = 0` (`solver_server.py` line 22). -/
def _SET_EDGE_REP_SUCCESS : ℤ := 0

/-- Constant `_SET_EDGE_REP_DO_NOT_UNDERSTAND = 1` (`solver_server.py` line 23). -/
def _SET_EDGE_REP_DO_NOT_UNDERSTAND : ℤ := 1

/-- Constant `_SET_EDGE_REP_EXCEPTION = 2` (`solver_server.py` line 24). -/
def _SET_EDGE_REP_EXCEPTION : ℤ := 2

/-- Constant `_SET_EDGE_REQ_EDGE_LIST = 0` (`solver_server.py` line 26). -/
def _SET_EDGE_REQ_EDGE_LIST : ℤ := 0

/-- Constant `_SOLUTION_UPDATE_REQUEST_RECEIVED = 0` (`solver_server.py` line 28). -/
def _SOLUTION_UPDATE_REQUEST_RECEIVED : ℕ := 0

/-- Modelled from the spec: `zmq_util._ndarray_as_bytes` (the `zmq_util`
module is not in the snapshot) serializes the solution array to its raw
bytes; the byte stream is represented at the granularity of the array's
unsigned-integer elements, so distinct arrays stay distinct. -/
def _ndarray_as_bytes (solution : List ℕ) : List ℕ :=
  solution

/-- Embedding of the `current_solution` handler (`solver_server.py` lines
182-189): fetch `workflow.get_latest_state()`; if it is `None` or its
`solution` is `None`, send status `_NO_SOLUTION_AVAILABLE` and empty bytes,
else send `_SUCCESS` and the solution's raw bytes. -/
def current_solution (w : Workflow) : ℕ × List ℕ :=
  match w.get_latest_state with
  | none => (_NO_SOLUTION_AVAILABLE, [])
  | some st =>
    match st.solution with
    | none => (_NO_SOLUTION_AVAILABLE, [])
    | some sol => (_SUCCESS, _ndarray_as_bytes sol)

/-- Embedding of the `update_request_received_confirmation` handler
(`solver_server.py` lines 213-215): call `workflow.request_update_state()`
and reply with `(_SOLUTION_UPDATE_REQUEST_RECEIVED, next_solution_id)`,
where `next_solution_id` is whatever that call returned. -/
def update_request_received_confirmation (w : Workflow) : Workflow × ℕ × Option ℕ :=
  let r := w.request_update_state
  (r.1, _SOLUTION_UPDATE_REQUEST_RECEIVED, r.2)

/-- Group a flat scalar stream into consecutive triples; a trailing fragment
shorter than a triple is dropped (callers reject such streams first). -/
def group3 {α : Type} : List α → List (α × α × α)
  | a :: b :: c :: rest => (a, b, c) :: group3 rest
  | _ => []

/-- Modelled from the spec: `zmq_util._bytes_as_edges` (not in the snapshot)
decodes the raw payload into a sequence of
`(endpoint_a, endpoint_b, label)` unsigned-integer triples and raises an
exception with a non-empty message on a wrong-length payload.  The byte
stream is modelled at the granularity of the decoded unsigned integers, so
a wrong length is a scalar count not divisible by three. -/
def _bytes_as_edges (payload : List ℕ) : Except String (List (ℕ × ℕ × ℕ)) :=
  if payload.length % 3 = 0 then Except.ok (group3 payload)
  else Except.error "cannot reshape payload into rows of three unsigned integers"

/-- Reply shapes of the set-edge-labels channel: two integers
(`send_ints_multipart`) or an integer code followed by a message string
(`send_more_int` + `send_string`). -/
inductive SetEdgeLabelsReply where
  | ints : ℤ → ℤ → SetEdgeLabelsReply
  | exceptionReply : ℤ → String → SetEdgeLabelsReply
deriving DecidableEq

/-- Embedding of the `set_edge_labels_send` handler (`solver_server.py` lines
196-211): on method `_SET_EDGE_REQ_EDGE_LIST` decode the payload, forward
the `(edge, label)` pairs to `workflow.request_set_edge_labels` and reply
`(_SET_EDGE_REP_SUCCESS, len(labels))`; on any other method reply
`(_SET_EDGE_REP_DO_NOT_UNDERSTAND, method)`; an exception raised while
decoding or handling is answered by `_SET_EDGE_REP_EXCEPTION` plus the
exception's message, leaving the workflow untouched. -/
def set_edge_labels_send (method : ℤ) (payload : List ℕ) (w : Workflow) :
    SetEdgeLabelsReply × Workflow :=
  if method = _SET_EDGE_REQ_EDGE_LIST then
    match _bytes_as_edges payload with
    | Except.ok labels =>
      let w2 := w.request_set_edge_labels (labels.map (fun e => (e.1, e.2.1)))
        (labels.map (fun e => e.2.2))
      (SetEdgeLabelsReply.ints _SET_EDGE_REP_SUCCESS (labels.length : ℤ), w2)
    | Except.error msg =>
      (SetEdgeLabelsReply.exceptionReply _SET_EDGE_REP_EXCEPTION msg, w)
  else
    (SetEdgeLabelsReply.ints _SET_EDGE_REP_DO_NOT_UNDERSTAND method, w)

/-- Whether a reply is an `_SET_EDGE_REP_EXCEPTION` reply carrying a
non-empty message string. -/
def SetEdgeLabelsReply.isNonEmptyException : SetEdgeLabelsReply → Bool
  | SetEdgeLabelsReply.exceptionReply code msg =>
    (code == _SET_EDGE_REP_EXCEPTION) && !(msg == "")
  | _ => false

/-- A Python value passed positionally to a listener callback: either an
integer (an exit code or solution id) or a `State` object. -/
inductive PyArg where
  | intArg : ℤ → PyArg
  | stateArg : State → PyArg

/-- A Python callable registered as a solution-update listener: its declared
positional parameter names, and — when called with a matching argument
count — the list of pairs it puts on the new-solution publish queue. -/
structure PyListener where
  params : List String
  onCall : List PyArg → List (PyArg × PyArg)

/-- Python positional call semantics: a callable invoked with a number of
positional arguments different from its declared parameter count raises a
`TypeError` instead of running its body. -/
def PyListener.call (f : PyListener) (args : List PyArg) :
    Except String (List (PyArg × PyArg)) :=
  if args.length = f.params.length then Except.ok (f.onCall args)
  else Except.error "TypeError: positional argument count mismatch"

/-- Embedding of the listener `SolverServer.__init__` registers
(`solver_server.py` line 266):
`lambda solution_id, exit_code, solution:
solution_notifier_socket.queue.put((solution_id, exit_code))` —
three declared positional parameters; the body enqueues the pair of its
first two arguments for the new-solution publish socket. -/
def server_solution_update_listener : PyListener :=
  { params := ["solution_id", "exit_code", "solution"],
    onCall := fun args =>
      [(args.getD 0 (PyArg.intArg 0), args.getD 1 (PyArg.intArg 0))] }

/-- Embedding of the listener invocation in `Workflow._update_state`
(`workflow.py` lines 127-128): each registered listener is called with the
two positional arguments `(exit_code, state)`. -/
def Workflow.notify_solution_listener (listener : PyListener) (exit_code : ℕ)
    (state : State) : Except String (List (PyArg × PyArg)) :=
  listener.call [PyArg.intArg (exit_code : ℤ), PyArg.stateArg state]

/-- The pairs actually published on the new-solution channel for one
completed recompute: none when the listener invocation raised. -/
def published_new_solution_pairs (r : Except String (List (PyArg × PyArg))) :
    List (PyArg × PyArg) :=
  match r with
  | Except.ok ps => ps
  | Except.error _ => []

/-- The keyword-addressable parameters `Workflow.__init__` declares
(`workflow.py` lines 59-65). -/
def workflow_init_params : List String :=
  ["edge_n5_container", "edge_dataset", "edge_feature_dataset",
   "n_estimators", "random_forest_kwargs"]

/-- The keyword arguments `SolverServer.__init__` passes to `Workflow(...)`
(`solver_server.py` lines 175-179). -/
def solver_server_workflow_call_kwargs : List String :=
  ["next_solution_id", "edge_n5_container", "edge_dataset",
   "edge_feature_dataset"]

/-- Python keyword-call semantics: the keyword arguments that the callee does
not declare (the callee has no catch-all `**kwargs`). -/
def unexpected_keyword_arguments (declared kwargs : List String) : List String :=
  kwargs.filter (fun k => !(declared.contains k))

/-- Python keyword-call semantics: a call with any unexpected keyword argument
raises a `TypeError` before the callee body runs. -/
def py_call_raises_type_error (declared kwargs : List String) : Bool :=
  !(unexpected_keyword_arguments declared kwargs).isEmpty

/-- How far `SolverServer.__init__` (`solver_server.py` lines 154-288) gets:
it can refuse the dataset during one of the two eligibility checks (lines
163-167), raise a `TypeError` while constructing the `Workflow` (line 175),
or reach channel creation and `server.start` (lines 259-286). -/
inductive ServerInitResult where
  | eligibilityError : String → ServerInitResult
  | constructionTypeError : String → ServerInitResult
  | channelsStarted : ServerInitResult
deriving DecidableEq

/-- Embedding of the `SolverServer.__init__` control flow: the paintera-data
check, then the label-data check, then the `Workflow(...)` keyword call
(which raises `TypeError` exactly when it passes an unexpected keyword
argument), and only after all of that the creation and start of the six
channels. -/
def SolverServer.init_result (is_paintera_data is_paintera_label_data : Bool) :
    ServerInitResult :=
  if !is_paintera_data then
    ServerInitResult.eligibilityError "Dataset is not paintera data in container"
  else if !is_paintera_label_data then
    ServerInitResult.eligibilityError "Dataset exists in container but is not label data"
  else if py_call_raises_type_error workflow_init_params solver_server_workflow_call_kwargs then
    ServerInitResult.constructionTypeError "unexpected keyword argument"
  else
    ServerInitResult.channelsStarted

/-- Concrete collaborator outcomes for a run in which training, prediction
and optimization all succeed, the optimizer returning the partition
`[0, 0, 0, 1]` of the four-node test graph. -/
def all_ok_oracles : ComputeOracles :=
  { train_model := fun _ _ => Except.ok (),
    predict := fun _ => Except.ok [],
    optimize := fun _ _ => Except.ok [0, 0, 0, 1] }

/-- Concrete collaborator outcomes for a run in which classifier training
raises (for example `LabelsInconsistency` when no labels are recorded). -/
def train_fails_oracles : ComputeOracles :=
  { train_model := fun _ _ => Except.error "LabelsInconsistency",
    predict := fun _ => Except.ok [],
    optimize := fun _ _ => Except.ok [] }

end Pias

namespace Pias

theorem optOr_assoc {α : Type} (a b c : Option α) :
    optOr (optOr a b) c = optOr a (optOr b c) := by
  cases a <;> cases b <;> rfl

theorem alookup_dictInsert {α β : Type} [DecidableEq α]
    (d : List (α × β)) (k : α) (v : β) (k' : α) :
    alookup k' (dictInsert d k v) = if k = k' then some v else alookup k' d := by
  induction d with
  | nil =>
    by_cases h : k = k' <;> simp [dictInsert, alookup, h]
  | cons p rest ih =>
    by_cases hp : p.1 = k
    · by_cases h : k = k' <;> simp [dictInsert, alookup, hp, h]
    · simp only [dictInsert, hp, if_false]
      by_cases h : p.1 = k'
      · have hk : ¬ k = k' := fun e => hp (e ▸ h)
        simp [alookup, h, hk]
      · simp [alookup, h, ih]

theorem keys_dictInsert_subset {α β : Type} [DecidableEq α]
    (d : List (α × β)) (k : α) (v : β) :
    ∀ a ∈ (dictInsert d k v).map Prod.fst, a = k ∨ a ∈ d.map Prod.fst := by
  induction d with
  | nil => intro a ha; simp [dictInsert] at ha; exact Or.inl ha
  | cons p rest ih =>
    intro a ha
    by_cases hp : p.1 = k
    · simp only [dictInsert, hp, if_true, List.map_cons, List.mem_cons] at ha
      rcases ha with h | h
      · exact Or.inl h
      · exact Or.inr (by simp [h])
    · simp only [dictInsert, hp, if_false, List.map_cons, List.mem_cons] at ha
      rcases ha with h | h
      · exact Or.inr (by simp [h])
      · rcases ih a h with h' | h'
        · exact Or.inl h'
        · exact Or.inr (by simp [h'])

theorem nodup_keys_dictInsert {α β : Type} [DecidableEq α]
    (d : List (α × β)) (k : α) (v : β)
    (h : (d.map Prod.fst).Nodup) : ((dictInsert d k v).map Prod.fst).Nodup := by
  induction d with
  | nil => simp [dictInsert]
  | cons p rest ih =>
    simp only [List.map_cons, List.nodup_cons] at h
    by_cases hp : p.1 = k
    · simp only [dictInsert, hp, if_true, List.map_cons, List.nodup_cons]
      exact ⟨hp ▸ h.1, h.2⟩
    · simp only [dictInsert, hp, if_false, List.map_cons, List.nodup_cons]
      refine ⟨?_, ih h.2⟩
      intro hmem
      rcases keys_dictInsert_subset rest k v p.1 hmem with h' | h'
      · exact hp h'
      · exact h.1 h'

theorem alookup_foldl_update (m : List (Edge × ℕ)) :
    ∀ (pairs : List (Edge × ℕ)) (d : List (ℕ × ℕ)) (i : ℕ),
      alookup i (pairs.foldl
        (fun d p =>
          match alookup p.1 m with
          | none => d
          | some index => dictInsert d index p.2) d)
      = optOr (lastWrite m i pairs) (alookup i d) := by
  intro pairs
  induction pairs with
  | nil => intro d i; simp [lastWrite, optOr]
  | cons p rest ih =>
    intro d i
    rw [List.foldl_cons]
    cases hm : alookup p.1 m with
    | none =>
      simp only [hm]
      rw [ih]
      simp only [lastWrite, hm]
      cases lastWrite m i rest <;> simp [optOr]
    | some j =>
      simp only [hm]
      rw [ih, alookup_dictInsert]
      simp only [lastWrite, hm, optOr_assoc]
      by_cases hj : j = i
      · cases lastWrite m i rest <;> simp [optOr, hj]
      · cases lastWrite m i rest <;> simp [optOr, hj]

theorem nodup_keys_foldl_update (m : List (Edge × ℕ)) :
    ∀ (pairs : List (Edge × ℕ)) (d : List (ℕ × ℕ)),
      (d.map Prod.fst).Nodup →
      ((pairs.foldl
        (fun d p =>
          match alookup p.1 m with
          | none => d
          | some index => dictInsert d index p.2) d).map Prod.fst).Nodup := by
  intro pairs
  induction pairs with
  | nil => intro d hd; simpa using hd
  | cons p rest ih =>
    intro d hd
    rw [List.foldl_cons]
    cases hm : alookup p.1 m with
    | none => simpa [hm] using ih d hd
    | some j => simpa [hm] using ih (dictInsert d j p.2) (nodup_keys_dictInsert d j p.2 hd)

theorem nodup_keys_update_labels (c : EdgeLabelCache) (edges : List Edge)
    (labels : List ℕ) (h : (c.edge_label_map.map Prod.fst).Nodup) :
    (((c.update_labels edges labels).edge_label_map).map Prod.fst).Nodup := by
  cases hm : c.edge_index_mapping with
  | none => simpa [EdgeLabelCache.update_labels, hm] using h
  | some m =>
    simpa [EdgeLabelCache.update_labels, hm] using
      nodup_keys_foldl_update m (edges.zip labels) c.edge_label_map h

theorem alookup_of_nodup_keys :
    ∀ (d : List (ℕ × ℕ)) (i k : ℕ),
      (d.map Prod.fst).Nodup → (d.map Prod.fst).get? i = some k →
      alookup k d = (d.map Prod.snd).get? i := by
  intro d
  induction d with
  | nil => intro i k _ hk; simp at hk
  | cons p rest ih =>
    intro i k hnd hk
    simp only [List.map_cons, List.nodup_cons] at hnd
    cases i with
    | zero =>
      simp only [List.map_cons, List.get?] at hk
      injection hk with hk
      subst hk
      simp [alookup]
    | succ j =>
      simp only [List.map_cons, List.get?] at hk
      have hkmem : k ∈ rest.map Prod.fst := List.get?_mem hk
      have hne : ¬ p.1 = k := fun e => hnd.1 (e ▸ hkmem)
      simp only [alookup, hne, if_false, List.map_cons, List.get?]
      exact ih j k hnd.2 hk

/-- Claim C4: for every call to `EdgeLabelCache.update_labels(edges, labels)`,
if the index mapping has never been set the call is a no-op; otherwise the
mapping is left unchanged and the resulting label dict maps each index `i`
to the label of the last `(edge, label)` pair whose edge the current
mapping sends to `i`, falling back to the previous entry — so pairs whose
edge is present are recorded at that edge's index position and pairs whose
edge is absent are skipped with no exception and no state change. -/
theorem claim_C4 (c : EdgeLabelCache) (edges : List Edge) (labels : List ℕ) :
    (c.edge_index_mapping = none → c.update_labels edges labels = c) ∧
    (∀ m, c.edge_index_mapping = some m →
      (c.update_labels edges labels).edge_index_mapping = some m ∧
      ∀ i, alookup i (c.update_labels edges labels).edge_label_map =
        optOr (lastWrite m i (edges.zip labels)) (alookup i c.edge_label_map)) := by
  constructor
  · intro h
    simp [EdgeLabelCache.update_labels, h]
  · intro m hm
    constructor
    · simp [EdgeLabelCache.update_labels, hm]
    · intro i
      simp only [EdgeLabelCache.update_labels, hm]
      exact alookup_foldl_update m (edges.zip labels) c.edge_label_map i

/-- Witness for claim C4 at a concrete cache: the mapping knows edge
`(1, 2)` (at index 0) but not `(7, 8)`; updating with both pairs records
label 5 at index 0, skips the unknown edge, and keeps the mapping. -/
theorem claim_C4_witness :
    (EdgeLabelCache.update_labels
        { edge_label_map := [(0, 3)], edge_index_mapping := some [((1, 2), 0)] }
        [(1, 2), (7, 8)] [5, 9]).edge_index_mapping = some [((1, 2), 0)] ∧
    alookup 0 (EdgeLabelCache.update_labels
        { edge_label_map := [(0, 3)], edge_index_mapping := some [((1, 2), 0)] }
        [(1, 2), (7, 8)] [5, 9]).edge_label_map = some 5 := by
  have h := (claim_C4
    { edge_label_map := [(0, 3)], edge_index_mapping := some [((1, 2), 0)] }
    [(1, 2), (7, 8)] [5, 9]).2 [((1, 2), 0)] rfl
  exact ⟨h.1, (h.2 0).trans (by decide)⟩

/-- Claim C5: `get_sample_and_label_arrays` returns two arrays of equal
length, one row and one label per recorded entry, and for every position
`i` the label at `i` is exactly the label the cache records for the index
whose feature-matrix row appears at `i` (the dict's keys are distinct, so
pairing is positionally consistent). -/
theorem claim_C5 {α : Type} (c : EdgeLabelCache) (samples : ℕ → α) :
    (c.get_sample_and_label_arrays samples).1.length
      = (c.get_sample_and_label_arrays samples).2.length ∧
    (c.get_sample_and_label_arrays samples).1.length = c.edge_label_map.length ∧
    ((c.edge_label_map.map Prod.fst).Nodup →
      ∀ i k, (c.edge_label_map.map Prod.fst).get? i = some k →
        (c.get_sample_and_label_arrays samples).1.get? i = some (samples k) ∧
        (c.get_sample_and_label_arrays samples).2.get? i
          = alookup k c.edge_label_map) := by
  refine ⟨by simp [EdgeLabelCache.get_sample_and_label_arrays],
          by simp [EdgeLabelCache.get_sample_and_label_arrays], ?_⟩
  intro hnd i k hk
  constructor
  · simp only [EdgeLabelCache.get_sample_and_label_arrays, List.get?_map, hk,
      Option.map_some']
  · simp only [EdgeLabelCache.get_sample_and_label_arrays]
    exact (alookup_of_nodup_keys c.edge_label_map i k hnd hk).symm

/-- Witness for claim C5 at a concrete cache with two recorded entries and
the feature matrix `fun k => k + 100`: position 0 pairs row `samples 2`
with the label recorded for index 2. -/
theorem claim_C5_witness :
    (EdgeLabelCache.get_sample_and_label_arrays
        { edge_label_map := [(2, 7), (0, 9)], edge_index_mapping := none }
        (fun k => k + 100)).1.get? 0 = some 102 ∧
    (EdgeLabelCache.get_sample_and_label_arrays
        { edge_label_map := [(2, 7), (0, 9)], edge_index_mapping := none }
        (fun k => k + 100)).2.get? 0
      = alookup 2 ([(2, 7), (0, 9)] : List (ℕ × ℕ)) := by
  exact (claim_C5
    { edge_label_map := [(2, 7), (0, 9)], edge_index_mapping := none }
    (fun k => k + 100)).2.2 (by decide) 0 2 rfl

/-- Claim C1 (code bug): `Workflow.request_update_state()` does enqueue one
recompute task, but its body has no return statement, so it returns `None`
— not the solution id the claim describes.  On a fresh workflow the first
and the second call both return `none` (no solution-id counter exists in
`Workflow`), so the claimed values 0 and 1 and the claimed strictly
increasing ids are impossible, and the update-solution reply carries
`none` in place of an id. -/
theorem claim_C1 (storage : EdgeFeatureCache) :
    ((Workflow.init storage).request_update_state).2 = none ∧
    (((Workflow.init storage).request_update_state).1.request_update_state).2 = none ∧
    (∀ w : Workflow, (w.request_update_state).2 = none) ∧
    (∀ w : Workflow, (w.request_update_state).1.update_queue = w.update_queue + 1) ∧
    (∀ w : Workflow, (update_request_received_confirmation w).2
        = (_SOLUTION_UPDATE_REQUEST_RECEIVED, (none : Option ℕ))) := by
  exact ⟨rfl, rfl, fun w => rfl, fun w => rfl, fun w => rfl⟩

/-- Claim C2 (code bug): the listener `SolverServer.__init__` registers
declares three positional parameters, but `Workflow._update_state` invokes
every listener with exactly two positional arguments, so the invocation
raises `TypeError` and no `(solution_id, exit_code)` pair is ever put on
the new-solution publish queue — not one pair per completed recompute. -/
theorem claim_C2 (exit_code : ℕ) (state : State) :
    server_solution_update_listener.params.length = 3 ∧
    Workflow.notify_solution_listener server_solution_update_listener exit_code state
      = Except.error "TypeError: positional argument count mismatch" ∧
    published_new_solution_pairs
      (Workflow.notify_solution_listener server_solution_update_listener exit_code state)
      = [] := by
  exact ⟨rfl, rfl, rfl⟩

/-- Claim C3 (code bug): `request_update_edges()` does refresh the feature
cache, but the value it then installs as the label cache's index mapping is
tuple component `[1]` of `get_edges_and_features()` — the feature matrix —
and not component `[2]`, the edge-identity-to-index mapping that
`Workflow._update_state` unpacks as `edge_index_mapping`. -/
theorem claim_C3 (w : Workflow) (storage : EdgeFeatureCache) :
    (w.request_update_edges storage).1.edge_feature_cache = storage ∧
    (w.request_update_edges storage).2 = TupleItem.featuresItem storage.edge_features ∧
    ((w.request_update_edges storage).2).isMappingItem = false ∧
    Workflow.update_state_unpacked_mapping storage
      = TupleItem.mappingItem storage.edge_index_mapping ∧
    (Workflow.update_state_unpacked_mapping storage).isMappingItem = true := by
  exact ⟨rfl, rfl, rfl, rfl, rfl⟩

/-- Claim C9 as amended: `State.compute()` never raises — a training
exception yields `RANDOM_FOREST_TRAINING_FAILED` and a prediction or
optimization exception yields `MC_OPTIMIZATION_FAILED` as the method's
RETURN VALUE, which is always one of the fixed enum; the `solution` field
is non-`None` iff that returned outcome is `SUCCESS`; but the
`solution_state` field is never assigned and remains `None`. -/
theorem claim_C9 (edges : List Edge) (edge_features : List (List ℤ))
    (graph : List Edge) (labeled_samples : List (List ℤ) × List ℕ)
    (o : ComputeOracles) :
    ((State.init edges edge_features graph labeled_samples o).compute).2
      = (match o.train_model labeled_samples.1 labeled_samples.2 with
         | Except.error _ => State.RANDOM_FOREST_TRAINING_FAILED
         | Except.ok _ =>
           match o.predict edge_features with
           | Except.error _ => State.MC_OPTIMIZATION_FAILED
           | Except.ok weights =>
             match o.optimize graph weights with
             | Except.error _ => State.MC_OPTIMIZATION_FAILED
             | Except.ok _ => State.SUCCESS) ∧
    (((State.init edges edge_features graph labeled_samples o).compute).1.solution).isSome
      = decide (((State.init edges edge_features graph labeled_samples o).compute).2
                  = State.SUCCESS) ∧
    ((State.init edges edge_features graph labeled_samples o).compute).1.solution_state
      = none ∧
    ((State.init edges edge_features graph labeled_samples o).compute).2
      ∈ [State.SUCCESS, State.RANDOM_FOREST_TRAINING_FAILED,
         State.MC_OPTIMIZATION_FAILED] := by
  cases ht : o.train_model labeled_samples.1 labeled_samples.2 with
  | error e =>
    simp [State.compute, State.init, ht, State.SUCCESS,
      State.RANDOM_FOREST_TRAINING_FAILED]
  | ok u =>
    cases hp : o.predict edge_features with
    | error e =>
      simp [State.compute, State.init, ht, hp, State.SUCCESS,
        State.MC_OPTIMIZATION_FAILED]
    | ok weights =>
      cases hopt : o.optimize graph weights with
      | error e =>
        simp [State.compute, State.init, ht, hp, hopt, State.SUCCESS,
          State.MC_OPTIMIZATION_FAILED]
      | ok sol =>
        simp [State.compute, State.init, ht, hp, hopt, State.SUCCESS]

/-- Counterexample to claim C9 as stated: on a run whose training and
optimization both succeed, `compute()` returns `SUCCESS`, yet
`solution_state` is still `None` afterwards — which is not one of the four
enum outcomes the claim requires it to be. -/
theorem claim_C9_counterexample :
    ((State.init [] [] [] ([], []) all_ok_oracles).compute).1.solution_state = none ∧
    ((State.init [] [] [] ([], []) all_ok_oracles).compute).2 = State.SUCCESS ∧
    ([some State.SUCCESS, some State.NO_LABEL_FOR_SOME_CLASSES,
      some State.RANDOM_FOREST_TRAINING_FAILED,
      some State.MC_OPTIMIZATION_FAILED].contains
        (((State.init [] [] [] ([], []) all_ok_oracles).compute).1.solution_state))
      = false := by
  exact ⟨rfl, rfl, rfl⟩

theorem compute_solution_isSome (s : State) (hs : s.solution = none) :
    (((s.compute).1.solution).isSome) = decide ((s.compute).2 = State.SUCCESS) := by
  unfold State.compute
  cases ht : s.oracles.train_model s.labeled_samples.1 s.labeled_samples.2 with
  | error e => simp [hs, State.SUCCESS, State.RANDOM_FOREST_TRAINING_FAILED]
  | ok u =>
    cases hp : s.oracles.predict s.edge_features with
    | error e => simp [hs, State.SUCCESS, State.MC_OPTIMIZATION_FAILED]
    | ok weights =>
      cases hopt : s.oracles.optimize s.graph weights with
      | error e => simp [hopt, hs, State.SUCCESS, State.MC_OPTIMIZATION_FAILED]
      | ok sol => simp [hopt, State.SUCCESS]

theorem computedState_solution_isSome (w : Workflow) (o : ComputeOracles) :
    (((w.computedState o).1.solution).isSome)
      = decide ((w.computedState o).2 = State.SUCCESS) := by
  unfold Workflow.computedState
  exact compute_solution_isSome _ rfl

theorem runUpdates_lss_isNone :
    ∀ (os : List ComputeOracles) (w : Workflow),
      (((w.runUpdates os).1.latest_successful_state).isNone)
        = (w.latest_successful_state.isNone
            && !(((w.runUpdates os).2).contains State.SUCCESS)) := by
  intro os
  induction os with
  | nil =>
    intro w
    simp [Workflow.runUpdates]
  | cons o os ih =>
    intro w
    simp only [Workflow.runUpdates]
    rw [ih]
    by_cases h : (w.computedState o).2 = State.SUCCESS
    · simp [Workflow._update_state, h, List.contains_cons]
    · have hd : decide (State.SUCCESS = (w.computedState o).2) = false :=
        decide_eq_false (Ne.symm h)
      simp [Workflow._update_state, h, hd, List.contains_cons]

theorem runUpdates_lss_solution :
    ∀ (os : List ComputeOracles) (w : Workflow),
      (∀ st, w.latest_successful_state = some st → st.solution.isSome = true) →
      ∀ st, (w.runUpdates os).1.latest_successful_state = some st →
        st.solution.isSome = true := by
  intro os
  induction os with
  | nil =>
    intro w hw st hst
    exact hw st (by simpa [Workflow.runUpdates] using hst)
  | cons o os ih =>
    intro w hw st hst
    simp only [Workflow.runUpdates] at hst
    refine ih ((w._update_state o).1) ?_ st hst
    intro st' hst'
    by_cases h : (w.computedState o).2 = State.SUCCESS
    · have he : st' = (w.computedState o).1 := by
        simp [Workflow._update_state, h] at hst'
        exact hst'.symm
      subst he
      rw [computedState_solution_isSome]
      simp [h]
    · exact hw st' (by simpa [Workflow._update_state, h] using hst')

/-- Claim C6: on completion of a recompute task, `latest_state` is set to
that task's computed `State`; `latest_successful_state` is set to it when
the exit code is `SUCCESS` and left unchanged otherwise;
`get_latest_state()` returns `latest_successful_state`; and over any
sequence of completed recomputes starting from a fresh workflow,
`get_latest_state()` is `none` exactly when no recompute has ever exited
with `SUCCESS` — it never exposes a failed state. -/
theorem claim_C6 (w : Workflow) (o : ComputeOracles) :
    (w._update_state o).1.latest_state = some (w.computedState o).1 ∧
    (w._update_state o).2 = (w.computedState o).2 ∧
    (w._update_state o).1.latest_successful_state
      = (if (w.computedState o).2 = State.SUCCESS then some (w.computedState o).1
         else w.latest_successful_state) ∧
    (∀ w' : Workflow, w'.get_latest_state = w'.latest_successful_state) ∧
    (∀ (storage : EdgeFeatureCache) (os : List ComputeOracles),
      ((((Workflow.init storage).runUpdates os).1.get_latest_state).isNone)
        = !((((Workflow.init storage).runUpdates os).2).contains State.SUCCESS)) := by
  refine ⟨rfl, rfl, rfl, fun w' => rfl, ?_⟩
  intro storage os
  have h := runUpdates_lss_isNone os (Workflow.init storage)
  simpa [Workflow.get_latest_state, Workflow.init] using h

/-- Claim C7: after any sequence of completed recomputes on a fresh
workflow, the current-solution reply is `NO_SOLUTION` with empty bytes when
no recompute has ever exited with `SUCCESS`, and otherwise `SUCCESS`
followed by the raw bytes of the latest successful state's solution array
(which in that case is present). -/
theorem claim_C7 (storage : EdgeFeatureCache) (os : List ComputeOracles) :
    current_solution ((Workflow.init storage).runUpdates os).1
      = (if (((Workflow.init storage).runUpdates os).2).contains State.SUCCESS
         then (_SUCCESS, _ndarray_as_bytes
            (((((Workflow.init storage).runUpdates os).1.get_latest_state).bind
                State.solution).getD []))
         else (_NO_SOLUTION_AVAILABLE, [])) ∧
    (((((Workflow.init storage).runUpdates os).1.get_latest_state).bind
        State.solution).isSome)
      = (((Workflow.init storage).runUpdates os).2).contains State.SUCCESS := by
  have hiso := runUpdates_lss_isNone os (Workflow.init storage)
  cases hl : ((Workflow.init storage).runUpdates os).1.latest_successful_state with
  | none =>
    have hmem : State.SUCCESS ∉ ((Workflow.init storage).runUpdates os).2 := by
      rw [hl] at hiso
      simpa [Workflow.init] using hiso
    simp [current_solution, Workflow.get_latest_state, hl, hmem]
  | some st =>
    have hmem : State.SUCCESS ∈ ((Workflow.init storage).runUpdates os).2 := by
      rw [hl] at hiso
      simpa [Workflow.init] using hiso
    have hsol : st.solution.isSome = true :=
      runUpdates_lss_solution os (Workflow.init storage)
        (by intro st' h'; simp [Workflow.init] at h') st hl
    obtain ⟨sol, hsol'⟩ := Option.isSome_iff_exists.mp hsol
    simp [current_solution, Workflow.get_latest_state, hl, hsol', hmem]

theorem group3_length {α : Type} : ∀ l : List α, (group3 l).length = l.length / 3
  | [] => by simp [group3]
  | [_] => by simp [group3]
  | [_, _] => by simp [group3]
  | _ :: _ :: _ :: rest => by
    simp only [group3, List.length_cons, group3_length rest]
    omega

/-- Claim C8: a set-edge-labels request with method `EDGE_LIST(0)` and a
well-formed payload is answered by `SUCCESS(0)` and the number of decoded
triples, the decoded pairs being forwarded to the workflow's label cache; an
unrecognized method is answered by `DO_NOT_UNDERSTAND(1)` and the submitted
method code unchanged, with no state change; a malformed payload is
answered by `EXCEPTION(2)` with a non-empty message and leaves the workflow
— in particular its label cache — exactly as the last successful submission
left it. -/
theorem claim_C8 (method : ℤ) (payload : List ℕ) (w : Workflow) :
    (method = _SET_EDGE_REQ_EDGE_LIST → payload.length % 3 = 0 →
      set_edge_labels_send method payload w
        = (SetEdgeLabelsReply.ints _SET_EDGE_REP_SUCCESS ((payload.length / 3 : ℕ) : ℤ),
           w.request_set_edge_labels
             ((group3 payload).map (fun e => (e.1, e.2.1)))
             ((group3 payload).map (fun e => e.2.2)))) ∧
    (method ≠ _SET_EDGE_REQ_EDGE_LIST →
      set_edge_labels_send method payload w
        = (SetEdgeLabelsReply.ints _SET_EDGE_REP_DO_NOT_UNDERSTAND method, w)) ∧
    (method = _SET_EDGE_REQ_EDGE_LIST → ¬ payload.length % 3 = 0 →
      ((set_edge_labels_send method payload w).1).isNonEmptyException = true ∧
      (set_edge_labels_send method payload w).2 = w) := by
  refine ⟨?_, ?_, ?_⟩
  · intro hm hlen
    subst hm
    simp [set_edge_labels_send, _bytes_as_edges, hlen, group3_length]
  · intro hm
    simp [set_edge_labels_send, hm]
  · intro hm hlen
    subst hm
    simp [set_edge_labels_send, _bytes_as_edges, hlen,
      SetEdgeLabelsReply.isNonEmptyException, _SET_EDGE_REP_EXCEPTION]

/-- Witness for claim C8 at a concrete input: method `EDGE_LIST(0)` with the
malformed two-scalar payload `[1, 2]` yields a non-empty `EXCEPTION` reply
and leaves the workflow unchanged. -/
theorem claim_C8_witness :
    ((set_edge_labels_send 0 [1, 2]
        (Workflow.init ⟨[], [], [], []⟩)).1).isNonEmptyException = true ∧
    (set_edge_labels_send 0 [1, 2] (Workflow.init ⟨[], [], [], []⟩)).2
      = Workflow.init ⟨[], [], [], []⟩ :=
  (claim_C8 0 [1, 2] (Workflow.init ⟨[], [], [], []⟩)).2.2 rfl (by decide)

/-- Claim C10: whenever both dataset eligibility checks pass,
`SolverServer.__init__` raises a `TypeError` while constructing the
`Workflow` — it passes the keyword argument `next_solution_id`, which
`Workflow.__init__` does not declare — and therefore never reaches the
creation and start of the channels. -/
theorem claim_C10 (p l : Bool) (hp : p = true) (hl : l = true) :
    SolverServer.init_result p l
      = ServerInitResult.constructionTypeError "unexpected keyword argument" ∧
    unexpected_keyword_arguments workflow_init_params solver_server_workflow_call_kwargs
      = ["next_solution_id"] := by
  subst hp; subst hl
  exact ⟨rfl, rfl⟩

/-- Witness for claim C10: both eligibility checks passing at a concrete
input, the construction ends in the `TypeError`. -/
theorem claim_C10_witness :
    (true = true) ∧
    (SolverServer.init_result true true
        = ServerInitResult.constructionTypeError "unexpected keyword argument" ∧
      unexpected_keyword_arguments workflow_init_params solver_server_workflow_call_kwargs
        = ["next_solution_id"]) :=
  ⟨rfl, claim_C10 true true rfl rfl⟩

end Pias
